import Mathlib

/-!
Verification of the camelot-combat-reporter line classifier.

The core under verification is `LogParser.parse` in `src/log_parser.py`:
a single compiled pattern

  \[(?P<timestamp>\d{2}:\d{2}:\d{2})\]\s+You hit (the )?(?P<target>.+?)
    for (?P<amount>\d+) points of((?P<type> \w+))? damage[!.]?

matched with `re.match` (anchored at the start of the line, not at the
end), a `datetime.strptime(ts, "%H:%M:%S")` conversion of the timestamp
capture, and a per-line loop that yields one `DamageEvent` per matching
line.  The whole loop body sits in one `try` whose handlers catch
`FileNotFoundError` (print a message naming the path, end the sequence)
and any other `Exception` (print a generic message, end the sequence).

The embedding below reproduces the backtracking semantics of this one
pattern directly:

* `\s+`, `\d+` and `\w+` are each followed by a literal character that
  lies outside their character class, so greedy matching with
  backtracking is equivalent to taking the maximal run (shrinking the
  run would leave the following literal facing a character of the class,
  which cannot match); the embedding takes maximal runs.
* `(the )?` is a greedy option: the variant consuming `"the "` is tried
  first over the entire remainder of the pattern, and the empty variant
  only if no continuation of the first succeeds.
* `(?P<target>.+?)` is lazy: target candidates are tried shortest first
  (at least one character, never a newline), and the first candidate
  whose continuation matches wins.
* the trailing `[!.]?` can never cause a failure and captures nothing,
  so it does not appear in the embedding.

Character classes are modelled at their ASCII meaning (`\d` as 0-9, `\w`
as alphanumerics plus underscore, `\s` as the six ASCII whitespace
characters); the Unicode extensions of the Python classes are not
exercised by any claim.  Python's unbounded non-negative `int` of a
digit string is `Nat`.  `datetime.strptime` with format `%H:%M:%S`
accepts exactly hours 0-23, minutes 0-59 and seconds 0-59 (a struct with
second 60 or 61 is rejected by the `datetime` constructor), and raises
`ValueError` otherwise; the raise is modelled as `Option.none` and the
generator-terminating `except Exception` handler as the `exn` outcome.
-/

/-- Time-of-day value, the result of `datetime.strptime(..., "%H:%M:%S").time()`. -/
structure Time where
  hour : Nat
  minute : Nat
  second : Nat
deriving DecidableEq, Repr

/-- `DamageEvent` from `src/models.py`: timestamp plus source, target,
damage_amount, damage_type. -/
structure DamageEvent where
  timestamp : Time
  source : String
  target : String
  damage_amount : Nat
  damage_type : String
deriving DecidableEq, Repr

/-- ASCII reading of the regex class `\d`. -/
def isDigitC (c : Char) : Bool := c.isDigit

/-- ASCII reading of the regex class `\s`: space, tab, newline, carriage
return, vertical tab, form feed. -/
def isSpaceC (c : Char) : Bool :=
  c == ' ' || c == '\t' || c == '\n' || c == '\r' || c == '\x0b' || c == '\x0c'

/-- ASCII reading of the regex class `\w`: alphanumerics and underscore. -/
def isWordC (c : Char) : Bool := c.isAlphanum || c == '_'

/-- Match a literal character sequence at the head of the input,
returning the rest on success. -/
def stripLit : List Char → List Char → Option (List Char)
  | [], s => some s
  | _ :: _, [] => none
  | c :: cs, d :: ds => if d == c then stripLit cs ds else none

/-- Maximal run of decimal digits at the head of the input
(`\d+` followed by a non-digit literal backtracks to exactly this). -/
def takeDigitRun : List Char → List Char × List Char
  | [] => ([], [])
  | c :: cs =>
    if isDigitC c then
      let r := takeDigitRun cs
      (c :: r.1, r.2)
    else ([], c :: cs)

/-- Maximal run of word characters at the head of the input
(`\w+` followed by a space literal backtracks to exactly this). -/
def takeWordRun : List Char → List Char × List Char
  | [] => ([], [])
  | c :: cs =>
    if isWordC c then
      let r := takeWordRun cs
      (c :: r.1, r.2)
    else ([], c :: cs)

/-- `\d{2}:\d{2}:\d{2}`: exactly eight characters, digits in positions
0,1,3,4,6,7 and colons in positions 2,5; returns the captured timestamp
text and the rest of the input. -/
def matchTs : List Char → Option (String × List Char)
  | a :: b :: c1 :: d :: e :: c2 :: f :: g :: rest =>
    if isDigitC a && isDigitC b && c1 == ':' && isDigitC d && isDigitC e
        && c2 == ':' && isDigitC f && isDigitC g then
      some (String.mk [a, b, c1, d, e, c2, f, g], rest)
    else none
  | _ => none

/-- `\s+` immediately followed by the literal `You`: a maximal nonempty
whitespace run (backtracking to a shorter run would put a whitespace
character under the literal `Y`, which cannot match). -/
def dropSpaces1 : List Char → Option (List Char)
  | [] => none
  | c :: rest => if isSpaceC c then some (rest.dropWhile isSpaceC) else none

/-- The filled variant of the optional group `((?P<type> \w+))?`: a
space, a maximal nonempty word run (backtracking to a shorter run would
put a word character under the space literal of ` damage`), then the
literal ` damage`.  On success the group captures the text ` word`,
leading space included, exactly as the named group does. -/
def matchTypeWith (s : List Char) : Option String :=
  match s with
  | [] => none
  | c :: s4 =>
    if c == ' ' then
      let wr := takeWordRun s4
      if wr.1.isEmpty then none
      else (stripLit " damage".data wr.2).map fun _ => String.mk (' ' :: wr.1)
    else none

/-- The greedy optional group `((?P<type> \w+))?` together with the
following literal ` damage`: the filled variant is tried first; only if
it fails is the group skipped and ` damage` required directly.  Returns
the type capture (`none` when the group is skipped). -/
def matchTypeGroup (s3 : List Char) : Option (Option String) :=
  match matchTypeWith s3 with
  | some ty => some (some ty)
  | none => (stripLit " damage".data s3).map fun _ => none

/-- Continuation of the pattern after the target capture:
` for (?P<amount>\d+) points of((?P<type> \w+))? damage[!.]?`.
Returns the amount capture (as its digit characters) and the optional
type capture. -/
def matchTail (s : List Char) : Option (List Char × Option String) :=
  (stripLit " for ".data s).bind fun s1 =>
    let dr := takeDigitRun s1
    if dr.1.isEmpty then none
    else
      (stripLit " points of".data dr.2).bind fun s3 =>
        (matchTypeGroup s3).map fun ty => (dr.1, ty)

/-- Lazy target capture `(?P<target>.+?)` followed by `matchTail`:
candidates are tried shortest first, one character minimum, no newline;
`acc` holds the reversed candidate built so far.  Returns the target
capture, the amount digits and the optional type capture. -/
def matchTargetTail (acc : List Char) : List Char → Option (String × List Char × Option String)
  | [] => none
  | c :: rest =>
    if c == '\n' then none
    else
      match matchTail rest with
      | some (ds, ty) => some (String.mk (c :: acc).reverse, ds, ty)
      | none => matchTargetTail (c :: acc) rest

/-- Greedy optional article `(the )?`: the variant consuming `"the "` is
tried first over the whole remainder; only if no target candidate
succeeds after it is the article dropped. -/
def matchAfterHit (s : List Char) : Option (String × List Char × Option String) :=
  match stripLit "the ".data s with
  | none => matchTargetTail [] s
  | some rest =>
    match matchTargetTail [] rest with
    | some r => some r
    | none => matchTargetTail [] s

/-- The capture groups of one successful pattern match. -/
structure RawMatch where
  ts : String
  target : String
  amount : List Char
  type? : Option String
deriving DecidableEq, Repr

/-- `re.match` of the full damage pattern against one line: anchored at
the start of the line, free at the end (trailing unmatched text is
allowed).  Returns the captures of the first match, or `none`. -/
def matchDamagePattern (line : String) : Option RawMatch :=
  (stripLit ['['] line.data).bind fun s1 =>
    (matchTs s1).bind fun p =>
      (stripLit [']'] p.2).bind fun s3 =>
        (dropSpaces1 s3).bind fun s4 =>
          (stripLit "You hit ".data s4).bind fun s5 =>
            (matchAfterHit s5).map fun r => ⟨p.1, r.1, r.2.1, r.2.2⟩

/-- Python `str.strip()`: remove leading and trailing whitespace. -/
def pyStrip (s : String) : String :=
  String.mk (((s.data.dropWhile isSpaceC).reverse.dropWhile isSpaceC).reverse)

/-- Numeric value of one digit character. -/
def digitVal (c : Char) : Nat := c.toNat - 48

/-- Python `int` of a decimal digit string. -/
def digitsVal (l : List Char) : Nat := l.foldl (fun a c => a * 10 + digitVal c) 0

/-- `datetime.strptime(ts, "%H:%M:%S").time()`: the capture is always
eight characters `hh:mm:hh` shaped, and the components must lie in
0-23 / 0-59 / 0-59; out-of-range components raise `ValueError`,
modelled as `none`. -/
def parseTimeField (ts : String) : Option Time :=
  match ts.data with
  | [a, b, _, d, e, _, f, g] =>
    let hh := digitVal a * 10 + digitVal b
    let mm := digitVal d * 10 + digitVal e
    let ss := digitVal f * 10 + digitVal g
    if hh ≤ 23 && mm ≤ 59 && ss ≤ 59 then some ⟨hh, mm, ss⟩ else none
  | _ => none

/-- The message text of the modelled `ValueError` from `strptime`. -/
def strptimeMsg (ts : String) : String :=
  "time data " ++ ts ++ " does not match format %H:%M:%S"

/-- Outcome of the loop body on one line: no pattern match, a
constructed event, or a raised-and-caught exception. -/
inductive ClassifyResult where
  | noMatch : ClassifyResult
  | ok : DamageEvent → ClassifyResult
  | exn : String → ClassifyResult
deriving DecidableEq, Repr

/-- The loop body of `LogParser.parse` on one line: match the pattern;
on a match, compute `damage_type` (the truthiness test `if damage_type:`
on the capture, then `.strip()`, else the `"Unknown"` sentinel) and
build the `DamageEvent` with `source='You'`, the stripped target, the
`int` of the amount and the strptime of the timestamp; a strptime
failure is the raised exception. -/
def classifyLine (line : String) : ClassifyResult :=
  match matchDamagePattern line with
  | none => ClassifyResult.noMatch
  | some m =>
    let damage_type : String :=
      match m.type? with
      | some t => if t = "" then "Unknown" else pyStrip t
      | none => "Unknown"
    match parseTimeField m.ts with
    | none => ClassifyResult.exn (strptimeMsg m.ts)
    | some t =>
      ClassifyResult.ok
        { timestamp := t
          source := "You"
          target := pyStrip m.target
          damage_amount := digitsVal m.amount
          damage_type := damage_type }

/-- The generator loop over the lines of an opened file: events yielded
in order, plus the messages printed by the handlers.  A caught exception
prints `An error occurred: ...` and returns, ending the sequence with
the events yielded so far kept. -/
def parseLines : List String → List DamageEvent × List String
  | [] => ([], [])
  | l :: ls =>
    match classifyLine l with
    | ClassifyResult.noMatch => parseLines ls
    | ClassifyResult.exn msg => ([], ["An error occurred: " ++ msg])
    | ClassifyResult.ok e => (e :: (parseLines ls).1, (parseLines ls).2)

/-- `LogParser.parse` at the file level: the file is either absent
(`open` raises `FileNotFoundError`, caught: one message naming the path,
no events) or a list of lines fed to the loop. -/
def parseFile (path : String) (content : Option (List String)) :
    List DamageEvent × List String :=
  match content with
  | none => ([], ["Error: Log file not found at " ++ path])
  | some ls => parseLines ls

/-! ### Helper lemmas -/

theorem parseLines_cons_noMatch {l : String} {ls : List String}
    (h : classifyLine l = ClassifyResult.noMatch) :
    parseLines (l :: ls) = parseLines ls := by
  simp [parseLines, h]

theorem parseLines_cons_exn {l : String} {ls : List String} {msg : String}
    (h : classifyLine l = ClassifyResult.exn msg) :
    parseLines (l :: ls) = ([], ["An error occurred: " ++ msg]) := by
  simp [parseLines, h]

theorem parseLines_cons_ok {l : String} {ls : List String} {e : DamageEvent}
    (h : classifyLine l = ClassifyResult.ok e) :
    parseLines (l :: ls) = (e :: (parseLines ls).1, (parseLines ls).2) := by
  simp [parseLines, h]

theorem matchTypeWith_ne (s : List Char) (t : String)
    (h : matchTypeWith s = some t) : t ≠ "" := by
  cases s with
  | nil => simp [matchTypeWith] at h
  | cons c s4 =>
    simp only [matchTypeWith] at h
    split at h
    · split at h
      · simp at h
      · simp only [Option.map_eq_some'] at h
        obtain ⟨_, _, rfl⟩ := h
        intro hcon
        have hd := congrArg String.data hcon
        simp at hd
    · simp at h

theorem matchTypeGroup_ne (s : List Char) (t : String)
    (h : matchTypeGroup s = some (some t)) : t ≠ "" := by
  unfold matchTypeGroup at h
  cases hw : matchTypeWith s with
  | some ty =>
    rw [hw] at h
    have hty : ty = t := by
      injection h with h1
      injection h1
    exact hty ▸ matchTypeWith_ne s ty hw
  | none =>
    rw [hw] at h
    simp [Option.map_eq_some'] at h

theorem matchTail_type_ne (s : List Char) (ds : List Char) (t : String)
    (h : matchTail s = some (ds, some t)) : t ≠ "" := by
  simp only [matchTail, Option.bind_eq_some] at h
  obtain ⟨s1, _, h⟩ := h
  split at h
  · simp at h
  · simp only [Option.bind_eq_some, Option.map_eq_some'] at h
    obtain ⟨s3, _, ty, hg, hpair⟩ := h
    have hty : ty = some t := congrArg Prod.snd hpair
    exact matchTypeGroup_ne s3 t (hty ▸ hg)

theorem matchTargetTail_type_ne (s : List Char) :
    ∀ (acc : List Char) (tgt : String) (ds : List Char) (t : String),
      matchTargetTail acc s = some (tgt, ds, some t) → t ≠ "" := by
  induction s with
  | nil => intro acc tgt ds t h; simp [matchTargetTail] at h
  | cons c rest ih =>
    intro acc tgt ds t h
    simp only [matchTargetTail] at h
    split at h
    · simp at h
    · cases hmt : matchTail rest with
      | some r =>
        obtain ⟨ds0, ty0⟩ := r
        simp only [hmt] at h
        injection h with h1
        have hty : ty0 = some t := congrArg (fun x => x.2.2) h1
        exact matchTail_type_ne rest ds0 t (hty ▸ hmt)
      | none =>
        simp only [hmt] at h
        exact ih (c :: acc) tgt ds t h

theorem matchAfterHit_type_ne (s : List Char) (tgt : String) (ds : List Char)
    (t : String) (h : matchAfterHit s = some (tgt, ds, some t)) : t ≠ "" := by
  unfold matchAfterHit at h
  cases h1 : stripLit "the ".data s with
  | none =>
    simp only [h1] at h
    exact matchTargetTail_type_ne s [] tgt ds t h
  | some rest =>
    simp only [h1] at h
    cases h2 : matchTargetTail [] rest with
    | some r =>
      simp only [h2] at h
      obtain rfl : r = (tgt, ds, some t) := Option.some.inj h
      exact matchTargetTail_type_ne rest [] tgt ds t h2
    | none =>
      simp only [h2] at h
      exact matchTargetTail_type_ne s [] tgt ds t h

theorem matchDamagePattern_type_ne (line : String) (m : RawMatch)
    (hm : matchDamagePattern line = some m) :
    ∀ t, m.type? = some t → t ≠ "" := by
  intro t htt
  simp only [matchDamagePattern, Option.bind_eq_some, Option.map_eq_some'] at hm
  obtain ⟨s1, _, p, _, s3, _, s4, _, s5, _, r, hr, rfl⟩ := hm
  obtain ⟨tgt, ds, ty⟩ := r
  simp only at htt
  exact matchAfterHit_type_ne s5 tgt ds t (htt ▸ hr)

theorem matchDamagePattern_not_lbracket (s : String)
    (h : s.data.head? ≠ some '[') : matchDamagePattern s = none := by
  have hs : stripLit ['['] s.data = none := by
    cases hd : s.data with
    | nil => rfl
    | cons c cs =>
      have hc : c ≠ '[' := by
        intro hcon
        exact h (by rw [hd, hcon]; rfl)
      simp [stripLit, hc]
  simp [matchDamagePattern, hs]

theorem classifyLine_not_lbracket (s : String)
    (h : s.data.head? ≠ some '[') : classifyLine s = ClassifyResult.noMatch := by
  simp [classifyLine, matchDamagePattern_not_lbracket s h]

theorem parseLines_mem_classified (lines : List String) :
    ∀ e : DamageEvent, e ∈ (parseLines lines).1 →
      ∃ l, l ∈ lines ∧ classifyLine l = ClassifyResult.ok e := by
  induction lines with
  | nil => intro e he; simp [parseLines] at he
  | cons l ls ih =>
    intro e he
    cases hc : classifyLine l with
    | noMatch =>
      rw [parseLines_cons_noMatch hc] at he
      obtain ⟨l2, hl2, h2⟩ := ih e he
      exact ⟨l2, List.mem_cons_of_mem _ hl2, h2⟩
    | exn msg =>
      rw [parseLines_cons_exn hc] at he
      simp at he
    | ok e0 =>
      rw [parseLines_cons_ok hc] at he
      rcases List.mem_cons.mp he with rfl | hmem
      · exact ⟨l, List.mem_cons_self _ _, hc⟩
      · obtain ⟨l2, hl2, h2⟩ := ih e hmem
        exact ⟨l2, List.mem_cons_of_mem _ hl2, h2⟩

theorem parseLines_length_le (lines : List String) :
    (parseLines lines).1.length ≤ lines.length := by
  induction lines with
  | nil => simp [parseLines]
  | cons l ls ih =>
    cases hc : classifyLine l with
    | noMatch =>
      rw [parseLines_cons_noMatch hc]
      exact Nat.le_succ_of_le ih
    | exn msg =>
      rw [parseLines_cons_exn hc]
      exact Nat.zero_le _
    | ok e =>
      rw [parseLines_cons_ok hc]
      exact Nat.succ_le_succ ih

theorem classifyLine_ok_fields (line : String) (e : DamageEvent)
    (h : classifyLine line = ClassifyResult.ok e) :
    ∃ m, matchDamagePattern line = some m ∧
      e.source = "You" ∧
      e.target = pyStrip m.target ∧
      e.damage_amount = digitsVal m.amount ∧
      e.damage_type = (match m.type? with
        | some t => if t = "" then "Unknown" else pyStrip t
        | none => "Unknown") := by
  unfold classifyLine at h
  cases hm : matchDamagePattern line with
  | none =>
    simp only [hm] at h
    exact ClassifyResult.noConfusion h
  | some m =>
    simp only [hm] at h
    cases ht : parseTimeField m.ts with
    | none =>
      simp only [ht] at h
      exact ClassifyResult.noConfusion h
    | some t =>
      simp only [ht] at h
      injection h with h1
      subst h1
      exact ⟨m, hm ▸ rfl, rfl, rfl, rfl, rfl⟩

/-! ### Claims -/

/-- Claim C1 (counterexample): a file whose first line matches the
grammar's surface shape but carries hour "99" is followed by a perfectly
valid damage line; the code yields NO events at all — the strptime
`ValueError` is caught by the generator's catch-all handler, which ends
the sequence, so the subsequent line is never processed — although that
subsequent line on its own yields an event. -/
theorem c1_counterexample :
    (parseLines ["[99:00:00] You hit a goblin for 25 points of damage.",
      "[01:23:45] You hit a goblin for 25 points of slash damage!"]).1 = [] ∧
    (parseLines ["[01:23:45] You hit a goblin for 25 points of slash damage!"]).1 =
      [⟨⟨1, 23, 45⟩, "You", "a goblin", 25, "slash"⟩] := by
  constructor <;> decide

/-- Claim C1 (amended): on a line whose text matches the grammar's
surface shape but whose timestamp is not a valid hour:minute:second
time, the classifier yields no event for that line and raises nothing
past the parse loop (the exception is caught and a message is printed),
but the event sequence is terminated at that line: subsequent lines are
not processed and contribute no events. -/
theorem c1_amended (bad : String) (rest : List String) (m : RawMatch)
    (hm : matchDamagePattern bad = some m) (ht : parseTimeField m.ts = none) :
    parseLines (bad :: rest) = ([], ["An error occurred: " ++ strptimeMsg m.ts]) := by
  have hc : classifyLine bad = ClassifyResult.exn (strptimeMsg m.ts) := by
    unfold classifyLine
    simp only [hm, ht]
  exact parseLines_cons_exn hc

/-- Claim C1 (witness for the amended statement), at the concrete
malformed-timestamp line with hour 99. -/
theorem c1_amended_witness :
    parseLines ["[99:00:00] You hit a goblin for 25 points of damage."] =
      ([], ["An error occurred: " ++ strptimeMsg "99:00:00"]) :=
  c1_amended _ [] ⟨"99:00:00", "a goblin", ['2', '5'], none⟩ (by decide) (by decide)

/-- Claim C2: the line `[12:00:00] You hit the dragon for 100 points of
damage.` yields exactly one DamageEvent with target "dragon" (the
leading "the " is consumed by the optional-article group and is not part
of the target capture), damage_amount 100 and damage_type "Unknown". -/
theorem c2_scenario_dragon :
    parseLines ["[12:00:00] You hit the dragon for 100 points of damage."] =
      ([⟨⟨12, 0, 0⟩, "You", "dragon", 100, "Unknown"⟩], []) := by
  decide

/-- Claim C3: every event in the parsed sequence comes from some line of
the file on which the classifier produced exactly that event, so a
non-matching line never contributes a partial or default-filled event;
concretely, the chat line `You sneeze.` and the empty line produce no
event. -/
theorem c3_no_event_from_nonmatch :
    (∀ (lines : List String) (e : DamageEvent), e ∈ (parseLines lines).1 →
        ∃ l, l ∈ lines ∧ classifyLine l = ClassifyResult.ok e) ∧
    classifyLine "You sneeze." = ClassifyResult.noMatch ∧
    classifyLine "" = ClassifyResult.noMatch := by
  refine ⟨parseLines_mem_classified, ?_, ?_⟩ <;> decide

/-- Claim C3 (witness): the membership implication instantiated on a
one-line file whose line classifies to an event. -/
theorem c3_witness :
    ∃ l, l ∈ ["[01:23:45] You hit a goblin for 25 points of slash damage!"] ∧
      classifyLine l =
        ClassifyResult.ok ⟨⟨1, 23, 45⟩, "You", "a goblin", 25, "slash"⟩ :=
  c3_no_event_from_nonmatch.1
    ["[01:23:45] You hit a goblin for 25 points of slash damage!"] _ (by decide)

/-- Claim C4: the line `[01:23:45] You hit a goblin for 25 points of
slash damage!` yields exactly one DamageEvent with timestamp 01:23:45,
source "You", target "a goblin", damage_amount 25, damage_type "slash". -/
theorem c4_scenario_goblin :
    parseLines ["[01:23:45] You hit a goblin for 25 points of slash damage!"] =
      ([⟨⟨1, 23, 45⟩, "You", "a goblin", 25, "slash"⟩], []) := by
  decide

/-- Claim C5: on every matching line, the yielded event's damage_type is
the sentinel "Unknown" when the optional type group is absent, and the
whitespace-trimmed capture of the group when it is present. -/
theorem c5_damage_type (line : String) (m : RawMatch) (e : DamageEvent)
    (hm : matchDamagePattern line = some m)
    (he : classifyLine line = ClassifyResult.ok e) :
    (m.type? = none → e.damage_type = "Unknown") ∧
    (∀ t, m.type? = some t → e.damage_type = pyStrip t) := by
  obtain ⟨m2, hm2, _, _, _, hty⟩ := classifyLine_ok_fields line e he
  obtain rfl : m = m2 := Option.some.inj (hm ▸ hm2)
  constructor
  · intro hn
    rw [hty, hn]
  · intro t htt
    have hne : t ≠ "" := matchDamagePattern_type_ne line m hm t htt
    rw [hty, htt]
    simp [hne]

/-- Claim C5 (witness): on the slash-damage line the type group is
present and the event's damage_type is the trimmed capture ` slash`. -/
theorem c5_witness :
    (⟨⟨1, 23, 45⟩, "You", "a goblin", 25, "slash"⟩ : DamageEvent).damage_type =
      pyStrip " slash" :=
  (c5_damage_type "[01:23:45] You hit a goblin for 25 points of slash damage!"
      ⟨"01:23:45", "a goblin", ['2', '5'], some " slash"⟩
      ⟨⟨1, 23, 45⟩, "You", "a goblin", 25, "slash"⟩
      (by decide) (by decide)).2 " slash" rfl

/-- Claim C6: the pattern is applied with `re.match`, anchored at the
start of the line: any line whose first character is not the opening
bracket (in particular any line with content before the bracketed
timestamp) yields no event — concretely, prefixing one junk character to
an otherwise matching line destroys the match that a search-anywhere
policy would still find — and each line contributes at most one event to
the sequence. -/
theorem c6_anchored_single_match :
    (∀ s : String, s.data.head? ≠ some '[' →
        classifyLine s = ClassifyResult.noMatch) ∧
    classifyLine "x[01:23:45] You hit a goblin for 25 points of slash damage!" =
      ClassifyResult.noMatch ∧
    (∀ lines : List String, (parseLines lines).1.length ≤ lines.length) := by
  refine ⟨classifyLine_not_lbracket, by decide, parseLines_length_le⟩

/-- Claim C6 (witness): the anchoring clause at a concrete line that
does not start with the bracket. -/
theorem c6_witness : classifyLine "zzz" = ClassifyResult.noMatch :=
  c6_anchored_single_match.1 "zzz" (by decide)

/-- Claim C7: when the log file path does not exist, `open` raises
`FileNotFoundError`, which the parse loop catches: the event sequence is
empty, exactly one descriptive message naming the path is printed, and
the loop returns normally (nothing is raised to the caller). -/
theorem c7_missing_file (path : String) :
    parseFile path none = ([], ["Error: Log file not found at " ++ path]) := rfl

/-- Claim C8: every yielded DamageEvent has source "You" and
damage_amount the base-10 value of the captured digit string; and a
single-digit amount "0" still matches, yielding damage_amount 0. -/
theorem c8_source_amount :
    (∀ (line : String) (e : DamageEvent),
        classifyLine line = ClassifyResult.ok e →
        e.source = "You" ∧
          ∃ m, matchDamagePattern line = some m ∧
            e.damage_amount = digitsVal m.amount) ∧
    classifyLine "[01:23:45] You hit a rat for 0 points of damage." =
      ClassifyResult.ok ⟨⟨1, 23, 45⟩, "You", "a rat", 0, "Unknown"⟩ := by
  constructor
  · intro line e h
    obtain ⟨m, hm, hsrc, _, hamt, _⟩ := classifyLine_ok_fields line e h
    exact ⟨hsrc, m, hm, hamt⟩
  · decide

/-- Claim C8 (witness): the invariant instantiated on the slash-damage
line. -/
theorem c8_witness :
    (⟨⟨1, 23, 45⟩, "You", "a goblin", 25, "slash"⟩ : DamageEvent).source = "You" ∧
    ∃ m, matchDamagePattern
        "[01:23:45] You hit a goblin for 25 points of slash damage!" = some m ∧
      (⟨⟨1, 23, 45⟩, "You", "a goblin", 25, "slash"⟩ : DamageEvent).damage_amount =
        digitsVal m.amount :=
  c8_source_amount.1 "[01:23:45] You hit a goblin for 25 points of slash damage!"
    ⟨⟨1, 23, 45⟩, "You", "a goblin", 25, "slash"⟩ (by decide)

/-- Claim C9: the classifier is a pure function of its input line, so
the match outcome is the same on every run; classifying a file
containing the same matching line twice yields two field-equal events. -/
theorem c9_deterministic (line : String) (e : DamageEvent)
    (h : classifyLine line = ClassifyResult.ok e) :
    parseLines [line, line] = ([e, e], []) := by
  rw [parseLines_cons_ok h, parseLines_cons_ok h]
  simp [parseLines]

/-- Claim C9 (witness): the dragon line duplicated yields two equal
events. -/
theorem c9_witness :
    parseLines ["[12:00:00] You hit the dragon for 100 points of damage.",
      "[12:00:00] You hit the dragon for 100 points of damage."] =
      ([⟨⟨12, 0, 0⟩, "You", "dragon", 100, "Unknown"⟩,
        ⟨⟨12, 0, 0⟩, "You", "dragon", 100, "Unknown"⟩], []) :=
  c9_deterministic "[12:00:00] You hit the dragon for 100 points of damage."
    ⟨⟨12, 0, 0⟩, "You", "dragon", 100, "Unknown"⟩ (by decide)

/-- Claim C10: the grammar does not force a non-empty target after
trimming: on a line whose target capture is a single space, the
classifier still yields an event, and its stripped target is the empty
string. -/
theorem c10_empty_target :
    classifyLine "[01:23:45] You hit   for 25 points of damage" =
      ClassifyResult.ok ⟨⟨1, 23, 45⟩, "You", "", 25, "Unknown"⟩ := by
  decide
